import Mathlib

/-!
# Verification of the EXLO reverse-tunneling gateway

Shallow embedding of the registry, proxy and SSH-handler logic of the
EXLO repository (crates `apps/tunnl` and `apps/tunnel`), together with
proofs about the behaviour described in the specification.

Wall-clock instants (`SystemTime`) are modelled as natural numbers of
seconds.  `SystemTime::duration_since` returns `Err` when the argument is
later than the receiver, which the embedding mirrors by guarding each
subtraction with an order check.  Rust `HashMap`s are modelled as
functions into `Option`, and the session-local `registered_subdomains`
vector as a `List`.
-/

namespace Exlo

/-! ## state.rs: constants and data model -/

/-- `DISCONNECTED_TUNNEL_TTL`: 30 minutes, in seconds. -/
def DISCONNECTED_TUNNEL_TTL : Nat := 30 * 60

/-- `DEVICE_FLOW_RATE_LIMIT`: 10 seconds minimum interval per IP. -/
def DEVICE_FLOW_RATE_LIMIT : Nat := 10

/-- `DEVICE_FLOW_MAX_ATTEMPTS`: 5 attempts per window. -/
def DEVICE_FLOW_MAX_ATTEMPTS : Nat := 5

/-- `DEVICE_FLOW_WINDOW`: 60 seconds. -/
def DEVICE_FLOW_WINDOW : Nat := 60

/-- `TunnelInfo` from `state.rs`.  The SSH `Handle` is opaque to the
registry (it is only cloned and handed to the proxy), so it is modelled
as a numeric identifier. -/
structure TunnelInfo where
  subdomain : String
  handle : Nat
  requested_address : String
  requested_port : Nat
  server_port : Nat
  created_at : Nat
  username : String
  client_ip : String
  is_connected : Bool
  disconnected_at : Option Nat
  deriving DecidableEq, Repr

/-- `RateLimitEntry` from `state.rs`. -/
structure RateLimitEntry where
  last_request : Nat
  attempts : Nat
  window_start : Nat
  deriving DecidableEq, Repr

/-- `RateLimitEntry::new()`: a fresh entry stamped `now` with one attempt. -/
def RateLimitEntry.new (now : Nat) : RateLimitEntry :=
  { last_request := now, attempts := 1, window_start := now }

/-- `RateLimitEntry::is_rate_limited`, with the ambient `SystemTime::now()`
made explicit.  Each `duration_since` check only fires when the stored
instant is not in the future. -/
def RateLimitEntry.is_rate_limited (e : RateLimitEntry) (now : Nat) : Bool :=
  if e.last_request ≤ now ∧ now - e.last_request < DEVICE_FLOW_RATE_LIMIT then
    true
  else if e.window_start ≤ now ∧ now - e.window_start < DEVICE_FLOW_WINDOW ∧
      DEVICE_FLOW_MAX_ATTEMPTS ≤ e.attempts then
    true
  else
    false

/-- `RateLimitEntry::record_attempt`: reset the window if it expired, then
stamp the request and bump the counter. -/
def RateLimitEntry.record_attempt (e : RateLimitEntry) (now : Nat) : RateLimitEntry :=
  let e' :=
    if e.window_start ≤ now ∧ DEVICE_FLOW_WINDOW ≤ now - e.window_start then
      { e with attempts := 0, window_start := now }
    else e
  { e' with last_request := now, attempts := e'.attempts + 1 }

/-- IP addresses, abstracted to their textual form. -/
abbrev IpAddr := String

/-- The rate-limit map of `AppState` (`HashMap<IpAddr, RateLimitEntry>`). -/
abbrev RateLimits := IpAddr → Option RateLimitEntry

/-- The tunnels map of `AppState` (`HashMap<String, TunnelInfo>`). -/
abbrev Tunnels := String → Option TunnelInfo

/-- Point update of a modelled `HashMap`. -/
def mapInsert {β : Type} (m : String → Option β) (k : String) (v : β) :
    String → Option β :=
  fun k' => if k' = k then some v else m k'

/-- Point removal from a modelled `HashMap`. -/
def mapRemove {β : Type} (m : String → Option β) (k : String) :
    String → Option β :=
  fun k' => if k' = k then none else m k'

/-- `AppState::check_and_record_device_flow`: the single critical section
over the rate-limit map.  Returns the rate-limited flag together with the
map after the call. -/
def check_and_record_device_flow (limits : RateLimits) (ip : IpAddr) (now : Nat) :
    Bool × RateLimits :=
  match limits ip with
  | some entry =>
      if entry.is_rate_limited now then (true, limits)
      else (false, mapInsert limits ip (entry.record_attempt now))
  | none => (false, mapInsert limits ip (RateLimitEntry.new now))

/-- `TunnelError` from `error.rs` (the variants the registry produces). -/
inductive TunnelError where
  | authFailed (msg : String)
  | subdomainTaken (subdomain : String)
  | tunnelNotFound (subdomain : String)
  deriving DecidableEq, Repr

/-- `AppState::register_tunnel`: reject when the subdomain key is present
(connected or not), otherwise insert. -/
def register_tunnel (tunnels : Tunnels) (info : TunnelInfo) :
    Except TunnelError Tunnels :=
  if (tunnels info.subdomain).isSome then
    .error (.subdomainTaken info.subdomain)
  else
    .ok (mapInsert tunnels info.subdomain info)

/-- `AppState::remove_tunnel`: remove and return the entry, or `TunnelNotFound`. -/
def remove_tunnel (tunnels : Tunnels) (subdomain : String) :
    Except TunnelError (TunnelInfo × Tunnels) :=
  match tunnels subdomain with
  | some info => .ok (info, mapRemove tunnels subdomain)
  | none => .error (.tunnelNotFound subdomain)

/-- `AppState::get_tunnel`. -/
def get_tunnel (tunnels : Tunnels) (subdomain : String) : Option TunnelInfo :=
  tunnels subdomain

/-- `AppState::is_subdomain_taken`: only connected entries count. -/
def is_subdomain_taken (tunnels : Tunnels) (subdomain : String) : Bool :=
  match tunnels subdomain with
  | some tunnel => tunnel.is_connected
  | none => false

/-- `AppState::mark_tunnel_disconnected`: flip the flag and stamp
`disconnected_at` on the entry, if present. -/
def mark_tunnel_disconnected (tunnels : Tunnels) (subdomain : String) (now : Nat) :
    Tunnels :=
  match tunnels subdomain with
  | some tunnel =>
      mapInsert tunnels subdomain
        { tunnel with is_connected := false, disconnected_at := some now }
  | none => tunnels

/-- `AppState::cleanup_expired_tunnels`: drop entries whose disconnection
instant lies strictly more than `DISCONNECTED_TUNNEL_TTL` in the past. -/
def cleanup_expired_tunnels (tunnels : Tunnels) (now : Nat) : Tunnels :=
  fun subdomain =>
    match tunnels subdomain with
    | some tunnel =>
        match tunnel.disconnected_at with
        | some d =>
            if d ≤ now ∧ DISCONNECTED_TUNNEL_TTL < now - d then none
            else some tunnel
        | none => some tunnel
    | none => none

/-! ## proxy.rs: Host-header parsing and connection handling

The proxy works on raw bytes; the embedding models text as `List Char`
(the repository only ever routes on ASCII data, and `str::len` agrees
with the character count on every string the functions accept).
`str::to_lowercase` is modelled on its ASCII fragment. -/

/-- ASCII case folding of one character (`char::to_lowercase` restricted
to its ASCII behaviour, which is all the proxy relies on). -/
def asciiLowerChar (c : Char) : Char :=
  if 'A' ≤ c ∧ c ≤ 'Z' then Char.ofNat (c.toNat + 32) else c

/-- `char::is_ascii_alphanumeric`. -/
def isAsciiAlphanumeric (c : Char) : Bool :=
  ('a' ≤ c && c ≤ 'z') || ('A' ≤ c && c ≤ 'Z') || ('0' ≤ c && c ≤ '9')

/-- `host.split(':').next()`: the part of the host before the first `':'`. -/
def stripPort (host : List Char) : List Char :=
  host.takeWhile (· ≠ ':')

/-- `extract_subdomain_with_base` from `proxy.rs`: strip any `:port`,
require `host = <label>.<base>`, and validate the label (non-empty, no
dots, at most 63 characters, `[a-z0-9-]` after lowercasing, no leading or
trailing hyphen).  Returns the lowercased label. -/
def extract_subdomain_with_base (host base : List Char) : Option (List Char) :=
  let host_without_port := stripPort host
  let suffix := '.' :: base
  if suffix <:+ host_without_port then
    let subdomain := host_without_port.take (host_without_port.length - suffix.length)
    if subdomain.isEmpty || subdomain.contains '.' then none
    else if 63 < subdomain.length then none
    else
      let subdomain_lower := subdomain.map asciiLowerChar
      if !subdomain_lower.all (fun c => isAsciiAlphanumeric c || c = '-') then none
      else if subdomain_lower.head? = some '-' || subdomain_lower.getLast? = some '-' then
        none
      else some subdomain_lower
  else none

/-- `extract_subdomain`: the base domain is `TUNNEL_URL` with its own
`:port` removed. -/
def extract_subdomain (tunnel_url host : List Char) : Option (List Char) :=
  extract_subdomain_with_base host (stripPort tunnel_url)

/-- One character of ASCII whitespace (the fragment of `str::trim`
relevant to header values). -/
def isAsciiWhitespace (c : Char) : Bool :=
  c = ' ' || c = '\t' || c = '\r' || c = '\n'

/-- `str::trim` on ASCII whitespace. -/
def trimChars (s : List Char) : List Char :=
  ((s.dropWhile isAsciiWhitespace).reverse.dropWhile isAsciiWhitespace).reverse

/-- Helper of `rustLines`: drop a `'\r'` that immediately preceded the
line feed, as `str::lines` does. -/
def stripTrailingCr (line : List Char) : List Char :=
  if line.getLast? = some '\r' then line.dropLast else line

/-- `str::lines`, accumulator-style: split at `'\n'` (removing a `'\r'`
just before it); a final segment without terminator is kept as-is, and a
trailing terminator does not produce an empty final line. -/
def rustLinesAux (acc : List Char) : List Char → List (List Char)
  | [] => if acc.isEmpty then [] else [acc]
  | c :: rest =>
      if c = '\n' then stripTrailingCr acc :: rustLinesAux [] rest
      else rustLinesAux (acc ++ [c]) rest

/-- `str::lines`. -/
def rustLines (s : List Char) : List (List Char) :=
  rustLinesAux [] s

/-- The loop of `extract_host_from_raw`: the first line whose lowercase
form starts with `host:` yields the trimmed remainder; an empty line ends
the header block. -/
def findHostLine : List (List Char) → Option (List Char)
  | [] => none
  | line :: rest =>
      let lower := line.map asciiLowerChar
      if ['h', 'o', 's', 't', ':'] <+: lower then some (trimChars (line.drop 5))
      else if line.isEmpty then none
      else findHostLine rest

/-- `extract_host_from_raw` from `proxy.rs`. -/
def extract_host_from_raw (data : List Char) : Option (List Char) :=
  findHostLine (rustLines data)

/-- HTTP reason phrase used by `error_response`. -/
def reasonPhrase (status : Nat) : List Char :=
  if status = 400 then "Bad Request".toList
  else if status = 404 then "Not Found".toList
  else if status = 502 then "Bad Gateway".toList
  else if status = 504 then "Gateway Timeout".toList
  else "Error".toList

/-- `error_response` from `proxy.rs`: a full synthetic HTTP/1.1 response
with a plain-text body. -/
def error_response (status : Nat) (message : List Char) : List Char :=
  "HTTP/1.1 ".toList ++ (toString status).toList ++ [' '] ++ reasonPhrase status ++
    "\r\nContent-Type: text/plain\r\nContent-Length: ".toList ++
    (toString message.length).toList ++
    "\r\nConnection: close\r\n\r\n".toList ++ message

/-- `tunnel_list_response`: the static 400 page shown when no Host header
is present. -/
def tunnel_list_response (tunnel_url : List Char) : List Char :=
  error_response 400 <|
    "Tunnel Proxy Server\n\nUse: curl -H \"Host: SUBDOMAIN.".toList ++ tunnel_url ++
      "\" <address>\n\nConnect with: ssh -R 8000:localhost:8000 -p 2222 <subdomain>@server".toList

/-- The 400 body listing registered tunnels (shown when the Host header
does not carry a valid subdomain).  `tunnel_lines` are the
`get_tunnel_url` renderings of `list_tunnels()`, in map order. -/
def availableTunnelsBody (tunnel_url : List Char) (tunnel_lines : List (List Char)) :
    List Char :=
  if tunnel_lines.isEmpty then
    ("No tunnels registered.\n\nConnect with: " ++
      "ssh -R 8000:localhost:8000 -p 2222 <subdomain>@server").toList
  else
    "Available tunnels:\n".toList ++
      List.intercalate ['\n'] (tunnel_lines.map ("  - ".toList ++ ·)) ++
      "\n\nUse: curl -H \"Host: SUBDOMAIN.".toList ++ tunnel_url ++
      "\" <address>".toList

/-- What `handle_connection` did to the public socket: the bytes written
(if any) and whether the bidirectional copy phase was reached. -/
structure ProxyResult where
  wrote : Option (List Char)
  proxied : Bool
  deriving DecidableEq, Repr

/-- `handle_connection` from `proxy.rs`, up to the bidirectional copy.
`peeked` is the outcome of `stream.peek` (`Except.error` for an I/O
failure, `Except.ok []` for the zero-byte case); `open_channel` gives the
outcome of `channel_open_forwarded_tcpip` on the stored handle, an error
carrying its rendered text; `tunnel_lines` feeds the 400 tunnel-list
body. -/
def handle_connection (tunnel_url : List Char)
    (peeked : Except Unit (List Char))
    (tunnels : List Char → Option TunnelInfo)
    (tunnel_lines : List (List Char))
    (open_channel : TunnelInfo → Except (List Char) Unit) : ProxyResult :=
  match peeked with
  | .error _ => { wrote := none, proxied := false }
  | .ok data =>
    if data.isEmpty then { wrote := none, proxied := false }
    else
      match extract_host_from_raw data with
      | none => { wrote := some (tunnel_list_response tunnel_url), proxied := false }
      | some host =>
        match extract_subdomain tunnel_url host with
        | none =>
            { wrote := some (error_response 400 (availableTunnelsBody tunnel_url tunnel_lines)),
              proxied := false }
        | some subdomain =>
          match tunnels subdomain with
          | none =>
              { wrote := some (error_response 404
                  ("Tunnel '".toList ++ subdomain ++ "' not found".toList)),
                proxied := false }
          | some tunnel =>
            match open_channel tunnel with
            | .error e =>
                { wrote := some (error_response 502
                    ("Failed to connect to tunnel: ".toList ++ e)),
                  proxied := false }
            | .ok _ => { wrote := none, proxied := true }

/-! ## apps/tunnel `ssh/types.rs`: the subdomain validator -/

/-- `MAX_SUBDOMAIN_LENGTH`. -/
def MAX_SUBDOMAIN_LENGTH : Nat := 63

/-- `MIN_SUBDOMAIN_LENGTH`. -/
def MIN_SUBDOMAIN_LENGTH : Nat := 1

/-- `SubdomainValidation` from `ssh/types.rs`. -/
inductive SubdomainValidation where
  | valid
  | tooLong
  | tooShort
  | invalidCharacters
  | startsWithHyphen
  | endsWithHyphen
  deriving DecidableEq, Repr

/-- `char::is_ascii_lowercase`. -/
def isAsciiLowercase (c : Char) : Bool :=
  'a' ≤ c && c ≤ 'z'

/-- `char::is_ascii_digit`. -/
def isAsciiDigit (c : Char) : Bool :=
  '0' ≤ c && c ≤ '9'

/-- `validate_subdomain` from `ssh/types.rs`, checks in source order:
length bounds, hyphen position, then the character set. -/
def validate_subdomain (subdomain : List Char) : SubdomainValidation :=
  if MAX_SUBDOMAIN_LENGTH < subdomain.length then .tooLong
  else if subdomain.length < MIN_SUBDOMAIN_LENGTH then .tooShort
  else if subdomain.head? = some '-' then .startsWithHyphen
  else if subdomain.getLast? = some '-' then .endsWithHyphen
  else if !subdomain.all (fun c => isAsciiLowercase c || isAsciiDigit c || c = '-') then
    .invalidCharacters
  else .valid

/-- `is_valid_subdomain`. -/
def is_valid_subdomain (subdomain : List Char) : Bool :=
  validate_subdomain subdomain = SubdomainValidation.valid

/-! ## create_tunnel: subdomain selection

Both crates carry a `create_tunnel`; they agree except for the priority
order of the subdomain-selection block, which is embedded for each
revision.  Only the session-state fields that block reads are needed. -/

/-- The fields of `SharedHandlerState` that subdomain selection reads:
the optional username-requested subdomain and the per-port map of
subdomains from the previous session. -/
structure SelectionState where
  requested_subdomain : Option String
  last_subdomains : Nat → Option String

/-- The subdomain-selection block of `create_tunnel` in
`apps/tunnel/src/ssh/tunnel.rs` (lines 51–79): `requested_subdomain`
first, classified as a reconnect exactly when it equals
`last_subdomains[port]`; else `last_subdomains[port]` as a reconnect;
else the freshly generated subdomain. -/
def choose_subdomain_tunnel (st : SelectionState) (port : Nat) (generated : String) :
    String × Bool :=
  match st.requested_subdomain with
  | some requested =>
      let is_reconnect :=
        match st.last_subdomains port with
        | some last => last = requested
        | none => false
      (requested, is_reconnect)
  | none =>
      match st.last_subdomains port with
      | some last => (last, true)
      | none => (generated, false)

/-- The subdomain-selection block of `create_tunnel` in
`apps/tunnl/src/ssh/tunnel.rs` (lines 51–67): `last_subdomains[port]`
first (always a reconnect), then `requested_subdomain` (never a
reconnect), then the freshly generated subdomain. -/
def choose_subdomain_tunnl (st : SelectionState) (port : Nat) (generated : String) :
    String × Bool :=
  match st.last_subdomains port with
  | some last => (last, true)
  | none =>
      match st.requested_subdomain with
      | some requested => (requested, false)
      | none => (generated, false)

/-! ## device.rs: `poll_until_verified` -/

/-- `DeviceFlowConfig` from `device.rs`. -/
structure DeviceFlowConfig where
  code_expiry_secs : Nat
  poll_interval_secs : Nat
  max_poll_attempts : Nat
  deriving DecidableEq, Repr

/-- `DeviceFlowConfig::default()` (the URL and secret fields are
environment-derived and irrelevant to polling). -/
def DeviceFlowConfig.default : DeviceFlowConfig :=
  { code_expiry_secs := 300, poll_interval_secs := 2, max_poll_attempts := 150 }

/-- `CheckCodeResponse` from `device.rs`. -/
structure CheckCodeResponse where
  status : String
  user_id : Option String
  deriving DecidableEq, Repr

/-- The body of the polling loop in `poll_until_verified`: attempt `i`
with `fuel` attempts remaining.  `responses i` is the outcome of
`check_code` on attempt `i` (transport errors carry their text and are
retried).  A `verified` response without a user id falls through and the
loop continues, mirroring the `if let Some(user_id)` in the source. -/
def pollLoop (responses : Nat → Except String CheckCodeResponse) :
    Nat → Nat → Except String String
  | _, 0 => .error "Timeout waiting for activation"
  | i, fuel + 1 =>
      match responses i with
      | .ok response =>
          if response.status = "verified" then
            match response.user_id with
            | some user_id => .ok user_id
            | none => pollLoop responses (i + 1) fuel
          else if response.status = "expired" then .error "Activation code expired"
          else if response.status = "not_found" then .error "Activation code not found"
          else pollLoop responses (i + 1) fuel
      | .error _ => pollLoop responses (i + 1) fuel

/-- `DeviceFlowClient::poll_until_verified`: up to
`config.max_poll_attempts` calls to `check_code`, one per
`poll_interval_secs` sleep. -/
def poll_until_verified (config : DeviceFlowConfig)
    (responses : Nat → Except String CheckCodeResponse) : Except String String :=
  pollLoop responses 0 config.max_poll_attempts

/-! ## ssh/handler_impl.rs: `cancel_tcpip_forward`

The handler clones `registered_subdomains` and iterates it, removing
each subdomain from the registry; only entries whose recorded address
and port match the cancelled forward are also retained out of the live
`registered_subdomains` list.  (`apps/tunnl/src/ssh/handler.rs` lines
518–542 carry the identical loop.) -/

/-- The loop of `cancel_tcpip_forward`: `todo` is the cloned snapshot of
`registered_subdomains`, `registered` the live list. -/
def cancelLoop (address : String) (port : Nat) :
    List String → Tunnels → List String → Tunnels × List String
  | [], tunnels, registered => (tunnels, registered)
  | subdomain :: rest, tunnels, registered =>
      match remove_tunnel tunnels subdomain with
      | .ok (info, tunnels') =>
          if info.requested_address = address ∧ info.requested_port = port then
            cancelLoop address port rest tunnels' (registered.filter (· ≠ subdomain))
          else
            cancelLoop address port rest tunnels' registered
      | .error _ => cancelLoop address port rest tunnels registered

/-- `cancel_tcpip_forward` from `ssh/handler_impl.rs` (lines 152–176):
returns the registry and the session's `registered_subdomains` after the
cancellation. -/
def cancel_tcpip_forward (address : String) (port : Nat)
    (registered : List String) (tunnels : Tunnels) : Tunnels × List String :=
  cancelLoop address port registered tunnels registered

/-! ## Specification-side definitions

These follow the wording of the specification (not the source) and are
used on the right-hand side of refinement statements. -/

/-- Spec side: what a single `check_code` outcome resolves to, per the
specification of `poll_until_verified`: status `verified` carrying a
user id succeeds, `expired` and `not_found` fail with the corresponding
error, everything else (`pending`, unknown statuses, transport errors,
`verified` without a user id) keeps polling. -/
def claimResolution : Except String CheckCodeResponse → Option (Except String String)
  | .ok response =>
      if response.status = "verified" then
        match response.user_id with
        | some user_id => some (.ok user_id)
        | none => none
      else if response.status = "expired" then some (.error "Activation code expired")
      else if response.status = "not_found" then some (.error "Activation code not found")
      else none
  | .error _ => none

/-- Spec side: the outcome of polling is the first resolving response
among the first `attempts` responses, or a timeout error when none
resolves. -/
def claimPollOutcome (responses : Nat → Except String CheckCodeResponse)
    (attempts : Nat) : Except String String :=
  match (List.range attempts).findSome? (fun i => claimResolution (responses i)) with
  | some outcome => outcome
  | none => .error "Timeout waiting for activation"

/-- Spec side: the DNS-label grammar of §4.5 applied to an (already
lowercased) label: 1–63 characters, all in `[a-z0-9-]`, no leading or
trailing hyphen. -/
def isValidDnsLabel (s : List Char) : Bool :=
  decide (1 ≤ s.length) && decide (s.length ≤ 63) &&
    s.all (fun c => isAsciiLowercase c || isAsciiDigit c || c = '-') &&
    !(s.head? = some '-' : Bool) && !(s.getLast? = some '-' : Bool)

/-- Spec side: whether the registry entry stored under a subdomain
matches a cancelled forward's address and port. -/
def matchesForward (tunnels : Tunnels) (address : String) (port : Nat)
    (subdomain : String) : Bool :=
  match tunnels subdomain with
  | some info => decide (info.requested_address = address ∧ info.requested_port = port)
  | none => false

/-! # Theorems -/

/-- `RateLimitEntry::is_rate_limited` computes exactly the policy
predicate of the specification, whenever the stored instants are not in
the future (which is the case in every reachable state). -/
theorem is_rate_limited_iff (e : RateLimitEntry) (now : Nat)
    (h1 : e.last_request ≤ now) (h2 : e.window_start ≤ now) :
    e.is_rate_limited now = true ↔
      (now - e.last_request < DEVICE_FLOW_RATE_LIMIT ∨
        (now - e.window_start < DEVICE_FLOW_WINDOW ∧
          DEVICE_FLOW_MAX_ATTEMPTS ≤ e.attempts)) := by
  unfold RateLimitEntry.is_rate_limited
  split_ifs with ha hb
  · simp only [true_iff]
    exact Or.inl ha.2
  · simp only [true_iff]
    exact Or.inr ⟨hb.2.1, hb.2.2⟩
  · refine iff_of_false (by simp) ?_
    rintro (hc | ⟨hc1, hc2⟩)
    · exact ha ⟨h1, hc⟩
    · exact hb ⟨h2, hc1, hc2⟩

/-- C5: the subdomain validator of `apps/tunnel/src/ssh/types.rs`
accepts `s` iff `1 ≤ |s| ≤ 63`, every character of `s` lies in
`[a-z0-9-]`, and the first and last characters are not `'-'`. -/
theorem validate_subdomain_iff_grammar (s : List Char) :
    is_valid_subdomain s = true ↔
      (1 ≤ s.length ∧ s.length ≤ 63 ∧
        (∀ c ∈ s, ('a' ≤ c ∧ c ≤ 'z') ∨ ('0' ≤ c ∧ c ≤ '9') ∨ c = '-') ∧
        s.head? ≠ some '-' ∧ s.getLast? ≠ some '-') := by
  unfold is_valid_subdomain validate_subdomain MAX_SUBDOMAIN_LENGTH MIN_SUBDOMAIN_LENGTH
  split_ifs with h1 h2 h3 h4 h5
  · simp only [decide_eq_true_eq]
    refine iff_of_false (by simp) ?_
    rintro ⟨-, hlen, -⟩
    omega
  · simp only [decide_eq_true_eq]
    refine iff_of_false (by simp) ?_
    rintro ⟨hlen, -⟩
    omega
  · simp only [decide_eq_true_eq]
    refine iff_of_false (by simp) ?_
    rintro ⟨-, -, -, hhead, -⟩
    exact hhead h3
  · simp only [decide_eq_true_eq]
    refine iff_of_false (by simp) ?_
    rintro ⟨-, -, -, -, hlast⟩
    exact hlast h4
  · simp only [decide_eq_true_eq]
    refine iff_of_false (by simp) ?_
    rintro ⟨-, -, hchars, -, -⟩
    rw [Bool.not_eq_true', ← Bool.not_eq_true] at h5
    refine h5 ?_
    rw [List.all_eq_true]
    intro c hc
    rcases hchars c hc with h | h | h
    · simp [isAsciiLowercase, h.1, h.2]
    · simp [isAsciiDigit, isAsciiLowercase, h.1, h.2]
    · simp [h]
  · simp only [decide_eq_true_eq, true_iff]
    rw [Bool.not_eq_true', Bool.not_eq_false] at h5
    rw [List.all_eq_true] at h5
    refine ⟨by omega, by omega, ?_, h3, h4⟩
    intro c hc
    have := h5 c hc
    simp only [isAsciiLowercase, isAsciiDigit, Bool.or_eq_true, Bool.and_eq_true,
      decide_eq_true_eq] at this
    tauto

/-- C2: `check_and_record_device_flow` is a single atomic step on the
rate-limit map: when the stored entry is currently limited (the request
interval is under 10 s, or the 60 s window holds at least 5 attempts) it
returns `true` and leaves the map unchanged; otherwise it returns
`false` and records the attempt, inserting a fresh entry with
`attempts = 1` for a first-seen IP. -/
theorem check_and_record_device_flow_spec (limits : RateLimits) (ip : IpAddr) (now : Nat) :
    (∀ e, limits ip = some e → e.last_request ≤ now → e.window_start ≤ now →
      ((now - e.last_request < DEVICE_FLOW_RATE_LIMIT ∨
          (now - e.window_start < DEVICE_FLOW_WINDOW ∧
            DEVICE_FLOW_MAX_ATTEMPTS ≤ e.attempts) →
        check_and_record_device_flow limits ip now = (true, limits)) ∧
       (¬(now - e.last_request < DEVICE_FLOW_RATE_LIMIT ∨
          (now - e.window_start < DEVICE_FLOW_WINDOW ∧
            DEVICE_FLOW_MAX_ATTEMPTS ≤ e.attempts)) →
        check_and_record_device_flow limits ip now =
          (false, mapInsert limits ip (e.record_attempt now))))) ∧
    (limits ip = none →
      check_and_record_device_flow limits ip now =
        (false, mapInsert limits ip
          { last_request := now, attempts := 1, window_start := now })) := by
  constructor
  · intro e he h1 h2
    constructor
    · intro hcond
      unfold check_and_record_device_flow
      rw [he]
      dsimp only
      rw [if_pos ((is_rate_limited_iff e now h1 h2).mpr hcond)]
    · intro hcond
      unfold check_and_record_device_flow
      have hlim : ¬(e.is_rate_limited now = true) :=
        fun hh => hcond ((is_rate_limited_iff e now h1 h2).mp hh)
      rw [he]
      dsimp only
      rw [if_neg hlim]
  · intro hnone
    unfold check_and_record_device_flow
    rw [hnone]
    rfl

/-- Witness for C2: a limited entry is left unchanged, and a first-seen
IP gets a fresh entry with one attempt. -/
theorem check_and_record_device_flow_spec_witness :
    check_and_record_device_flow
        (fun ip => if ip = "203.0.113.9" then some ⟨95, 1, 95⟩ else none)
        "203.0.113.9" 100 =
      (true, fun ip => if ip = "203.0.113.9" then some ⟨95, 1, 95⟩ else none) ∧
    check_and_record_device_flow (fun _ => none) "198.51.100.1" 7 =
      (false, mapInsert (fun _ => none) "198.51.100.1"
        { last_request := 7, attempts := 1, window_start := 7 }) :=
  ⟨(((check_and_record_device_flow_spec _ "203.0.113.9" 100).1 ⟨95, 1, 95⟩ (by simp)
      (by decide) (by decide)).1 (by decide)),
   ((check_and_record_device_flow_spec (fun _ => none) "198.51.100.1" 7).2 rfl)⟩

/-- C3 is false on the code: with the entry
`{last_request := 90, attempts := 5, window_start := 45}` the call at
second 100 returns `true` (limited by the attempts window) and leaves
the map unchanged, yet the subsequent call at second 106 — within 10
seconds of the call that returned `true` — returns `false`, because by
then the 60-second window has expired and the last recorded request is
16 seconds old. -/
theorem check_and_record_not_monotone :
    (check_and_record_device_flow
        (fun ip => if ip = "203.0.113.7" then some ⟨90, 5, 45⟩ else none)
        "203.0.113.7" 100).1 = true ∧
    (106 : Nat) - 100 < 10 ∧
    (check_and_record_device_flow
        (check_and_record_device_flow
          (fun ip => if ip = "203.0.113.7" then some ⟨90, 5, 45⟩ else none)
          "203.0.113.7" 100).2
        "203.0.113.7" 106).1 = false := by
  decide

/-- C3 (amended): the monotonicity that does hold is anchored at the
last *recorded* attempt, not at a call that returned `true`: whenever
the stored entry's last recorded request is less than 10 seconds old,
`check_and_record_device_flow` returns `true` and leaves the map — and
hence the attempts counter — unchanged.  (A call that returned `true`
purely by the 5-attempts-per-minute rule can be followed within 10 s by
a call that returns `false`, as `check_and_record_not_monotone`
shows.) -/
theorem check_and_record_monotone_within_interval (limits : RateLimits) (ip : IpAddr)
    (now : Nat) (e : RateLimitEntry) (he : limits ip = some e)
    (h1 : e.last_request ≤ now)
    (h2 : now - e.last_request < DEVICE_FLOW_RATE_LIMIT) :
    check_and_record_device_flow limits ip now = (true, limits) := by
  unfold check_and_record_device_flow
  rw [he]
  dsimp only
  rw [if_pos]
  unfold RateLimitEntry.is_rate_limited
  rw [if_pos ⟨h1, h2⟩]

/-- Witness for the amended C3. -/
theorem check_and_record_monotone_within_interval_witness :
    check_and_record_device_flow
        (fun ip => if ip = "203.0.113.8" then some ⟨40, 2, 40⟩ else none)
        "203.0.113.8" 44 =
      (true, fun ip => if ip = "203.0.113.8" then some ⟨40, 2, 40⟩ else none) :=
  check_and_record_monotone_within_interval _ "203.0.113.8" 44 ⟨40, 2, 40⟩
    (by simp) (by decide) (by decide)

/-- C6 is false on the code at the 30-minute boundary: the sweeper only
removes entries strictly older than `DISCONNECTED_TUNNEL_TTL`, so after
`mark_tunnel_disconnected` at second 0 a sweep at second 1800 — exactly
30 minutes, hence "at least 30 minutes" of wall time — still finds the
entry. -/
theorem cleanup_at_ttl_boundary_keeps_entry :
    get_tunnel
        (cleanup_expired_tunnels
          (mark_tunnel_disconnected
            (fun k => if k = "demo" then
                some ⟨"demo", 0, "localhost", 3000, 80, 0, "alice", "127.0.0.1", true, none⟩
              else none)
            "demo" 0)
          1800)
        "demo" ≠ none := by
  decide

/-- C6 (amended): `mark_tunnel_disconnected` only flips `is_connected`
and stamps `disconnected_at`, leaving the entry present; after strictly
more than 30 minutes a single sweep removes it, so `get` returns
`None`. -/
theorem mark_disconnected_then_sweep (tunnels : Tunnels) (s : String)
    (info : TunnelInfo) (t now : Nat) (h : tunnels s = some info) (ht : t ≤ now)
    (httl : DISCONNECTED_TUNNEL_TTL < now - t) :
    mark_tunnel_disconnected tunnels s t =
      mapInsert tunnels s { info with is_connected := false, disconnected_at := some t } ∧
    get_tunnel (cleanup_expired_tunnels (mark_tunnel_disconnected tunnels s t) now) s =
      none := by
  have hmark : mark_tunnel_disconnected tunnels s t =
      mapInsert tunnels s { info with is_connected := false, disconnected_at := some t } := by
    unfold mark_tunnel_disconnected
    rw [h]
  refine ⟨hmark, ?_⟩
  unfold get_tunnel cleanup_expired_tunnels
  rw [hmark]
  simp [mapInsert, ht, httl]

/-- Witness for the amended C6: one second past the 30-minute mark the
swept registry no longer resolves the subdomain. -/
theorem mark_disconnected_then_sweep_witness :
    get_tunnel
        (cleanup_expired_tunnels
          (mark_tunnel_disconnected
            (fun k => if k = "w" then
                some ⟨"w", 1, "localhost", 8000, 80, 0, "bob", "10.0.0.2", true, none⟩
              else none)
            "w" 0)
          1801)
        "w" = none :=
  (mark_disconnected_then_sweep _ "w" ⟨"w", 1, "localhost", 8000, 80, 0, "bob", "10.0.0.2", true, none⟩
    0 1801 (by decide) (by decide) (by decide)).2

/-- C9: `register_tunnel` rejects a subdomain held by *any* entry —
connected or not — even though `is_subdomain_taken` reports a
disconnected entry as free; during the grace window the subdomain can
only be re-registered after `remove_tunnel`. -/
theorem register_tunnel_blocks_disconnected_subdomain (tunnels : Tunnels)
    (info old : TunnelInfo) (h : tunnels info.subdomain = some old) :
    register_tunnel tunnels info = .error (.subdomainTaken info.subdomain) ∧
    (old.is_connected = false → is_subdomain_taken tunnels info.subdomain = false) ∧
    remove_tunnel tunnels info.subdomain = .ok (old, mapRemove tunnels info.subdomain) ∧
    register_tunnel (mapRemove tunnels info.subdomain) info =
      .ok (mapInsert (mapRemove tunnels info.subdomain) info.subdomain info) := by
  refine ⟨?_, ?_, ?_, ?_⟩
  · unfold register_tunnel
    rw [h]
    rfl
  · intro hconn
    unfold is_subdomain_taken
    rw [h]
    exact hconn
  · unfold remove_tunnel
    rw [h]
  · unfold register_tunnel
    simp [mapRemove]

/-- Witness for C9, on a registry holding a single disconnected entry. -/
theorem register_tunnel_blocks_disconnected_subdomain_witness :
    register_tunnel
        (fun k => if k = "api" then
            some ⟨"api", 3, "localhost", 3000, 80, 0, "carol", "10.0.0.3", false, some 5⟩
          else none)
        ⟨"api", 4, "localhost", 4000, 80, 9, "dave", "10.0.0.4", true, none⟩ =
      .error (.subdomainTaken "api") ∧
    is_subdomain_taken
        (fun k => if k = "api" then
            some ⟨"api", 3, "localhost", 3000, 80, 0, "carol", "10.0.0.3", false, some 5⟩
          else none)
        "api" = false :=
  ⟨(register_tunnel_blocks_disconnected_subdomain _ _
      ⟨"api", 3, "localhost", 3000, 80, 0, "carol", "10.0.0.3", false, some 5⟩
      (by decide)).1,
   (register_tunnel_blocks_disconnected_subdomain _
      ⟨"api", 4, "localhost", 4000, 80, 9, "dave", "10.0.0.4", true, none⟩
      ⟨"api", 3, "localhost", 3000, 80, 0, "carol", "10.0.0.3", false, some 5⟩
      (by decide)).2.1 rfl⟩

/-- C1 is false on the code of `apps/tunnl`: with both
`requested_subdomain = Some "api"` and `last_subdomains[3000] = "old"`,
its `create_tunnel` selects `"old"` (classified as a reconnect), not the
requested `"api"`. -/
theorem choose_subdomain_tunnl_ignores_requested :
    choose_subdomain_tunnl
        { requested_subdomain := some "api",
          last_subdomains := fun p => if p = 3000 then some "old" else none }
        3000 "fresh-generated" = ("old", true) ∧
    (choose_subdomain_tunnl
        { requested_subdomain := some "api",
          last_subdomains := fun p => if p = 3000 then some "old" else none }
        3000 "fresh-generated").1 ≠ "api" := by
  decide

/-- C1 (amended): in `apps/tunnel`, `create_tunnel` selects the
subdomain with `requested_subdomain` taking priority, classifying the
request as a reconnect exactly when it equals `last_subdomains[port]`;
in `apps/tunnl` the priority is inverted: `last_subdomains[port]` wins
and is always a reconnect, `requested_subdomain` is used only when no
previous subdomain is stored (never a reconnect), and a fresh subdomain
is generated only when both are absent. -/
theorem choose_subdomain_priority_spec :
    (∀ (st : SelectionState) (port : Nat) (generated req : String),
       st.requested_subdomain = some req →
       choose_subdomain_tunnel st port generated =
         (req, decide (st.last_subdomains port = some req))) ∧
    (∀ (st : SelectionState) (port : Nat) (generated last : String),
       st.requested_subdomain = none → st.last_subdomains port = some last →
       choose_subdomain_tunnel st port generated = (last, true)) ∧
    (∀ (st : SelectionState) (port : Nat) (generated : String),
       st.requested_subdomain = none → st.last_subdomains port = none →
       choose_subdomain_tunnel st port generated = (generated, false)) ∧
    (∀ (st : SelectionState) (port : Nat) (generated last : String),
       st.last_subdomains port = some last →
       choose_subdomain_tunnl st port generated = (last, true)) ∧
    (∀ (st : SelectionState) (port : Nat) (generated req : String),
       st.last_subdomains port = none → st.requested_subdomain = some req →
       choose_subdomain_tunnl st port generated = (req, false)) ∧
    (∀ (st : SelectionState) (port : Nat) (generated : String),
       st.last_subdomains port = none → st.requested_subdomain = none →
       choose_subdomain_tunnl st port generated = (generated, false)) := by
  refine ⟨?_, ?_, ?_, ?_, ?_, ?_⟩
  · intro st port generated req hreq
    unfold choose_subdomain_tunnel
    rw [hreq]
    cases hlast : st.last_subdomains port with
    | none => simp [hlast]
    | some last => simp [hlast]
  · intro st port generated last hreq hlast
    unfold choose_subdomain_tunnel
    rw [hreq, hlast]
  · intro st port generated hreq hlast
    unfold choose_subdomain_tunnel
    rw [hreq, hlast]
  · intro st port generated last hlast
    unfold choose_subdomain_tunnl
    rw [hlast]
  · intro st port generated req hlast hreq
    unfold choose_subdomain_tunnl
    rw [hlast, hreq]
  · intro st port generated hlast hreq
    unfold choose_subdomain_tunnl
    rw [hlast, hreq]

/-- Witness for the amended C1: the two revisions evaluated on a state
carrying both a requested and a previous subdomain, and on the
generate-fresh path. -/
theorem choose_subdomain_priority_spec_witness :
    choose_subdomain_tunnel
        { requested_subdomain := some "api",
          last_subdomains := fun p => if p = 3000 then some "old" else none }
        3000 "g" = ("api", false) ∧
    choose_subdomain_tunnl
        { requested_subdomain := some "api",
          last_subdomains := fun p => if p = 3000 then some "old" else none }
        3000 "g" = ("old", true) ∧
    choose_subdomain_tunnel
        { requested_subdomain := none, last_subdomains := fun _ => none }
        3000 "g" = ("g", false) :=
  ⟨by
    have := choose_subdomain_priority_spec.1
      { requested_subdomain := some "api",
        last_subdomains := fun p => if p = 3000 then some "old" else none }
      3000 "g" "api" rfl
    rw [this]
    decide,
   choose_subdomain_priority_spec.2.2.2.1
     { requested_subdomain := some "api",
       last_subdomains := fun p => if p = 3000 then some "old" else none }
     3000 "g" "old" (by decide),
   choose_subdomain_priority_spec.2.2.1
     { requested_subdomain := none, last_subdomains := fun _ => none }
     3000 "g" rfl rfl⟩

/-- The body handed to `error_response` ends the synthetic response, so
any suffix of the body appears verbatim in the bytes written. -/
theorem error_response_contains_message (status : Nat) (pre msg : List Char) :
    msg <:+ error_response status (pre ++ msg) := by
  unfold error_response
  exact (List.suffix_append pre msg).trans (List.suffix_append _ _)

/-- C7: the proxy's error paths.  A peek that yields 0 bytes closes the
connection without writing anything; a valid subdomain that misses the
registry gets a synthetic 404 naming the subdomain; a registry hit whose
forwarded-channel open fails gets a synthetic 502 whose body carries the
underlying error text; none of these reach the copy phase. -/
theorem handle_connection_error_paths (tunnel_url : List Char)
    (tunnels : List Char → Option TunnelInfo) (tunnel_lines : List (List Char))
    (open_channel : TunnelInfo → Except (List Char) Unit) :
    (handle_connection tunnel_url (.ok []) tunnels tunnel_lines open_channel =
      { wrote := none, proxied := false }) ∧
    (∀ data host subdomain, data ≠ [] →
      extract_host_from_raw data = some host →
      extract_subdomain tunnel_url host = some subdomain →
      tunnels subdomain = none →
      handle_connection tunnel_url (.ok data) tunnels tunnel_lines open_channel =
        { wrote := some (error_response 404
            ("Tunnel '".toList ++ subdomain ++ "' not found".toList)),
          proxied := false }) ∧
    (∀ data host subdomain tunnel e, data ≠ [] →
      extract_host_from_raw data = some host →
      extract_subdomain tunnel_url host = some subdomain →
      tunnels subdomain = some tunnel →
      open_channel tunnel = .error e →
      handle_connection tunnel_url (.ok data) tunnels tunnel_lines open_channel =
        { wrote := some (error_response 502
            ("Failed to connect to tunnel: ".toList ++ e)),
          proxied := false } ∧
      e <:+ error_response 502 ("Failed to connect to tunnel: ".toList ++ e)) := by
  refine ⟨rfl, ?_, ?_⟩
  · intro data host subdomain hne hhost hsub hnone
    unfold handle_connection
    dsimp only
    rw [if_neg (by simpa using hne), hhost]
    dsimp only
    rw [hsub]
    dsimp only
    rw [hnone]
  · intro data host subdomain tunnel e hne hhost hsub hsome hopen
    refine ⟨?_, error_response_contains_message 502 _ e⟩
    unfold handle_connection
    dsimp only
    rw [if_neg (by simpa using hne), hhost]
    dsimp only
    rw [hsub]
    dsimp only
    rw [hsome]
    dsimp only
    rw [hopen]

/-- Witness for C7: a concrete request for `abc.localhost` against an
empty registry (404) and against a registry whose channel open fails
(502 carrying the error text). -/
theorem handle_connection_error_paths_witness :
    handle_connection "localhost:8080".toList
        (.ok "GET / HTTP/1.1\r\nHost: abc.localhost\r\n\r\n".toList)
        (fun _ => none) [] (fun _ => .ok ()) =
      { wrote := some (error_response 404
          ("Tunnel '".toList ++ "abc".toList ++ "' not found".toList)),
        proxied := false } ∧
    handle_connection "localhost:8080".toList
        (.ok "GET / HTTP/1.1\r\nHost: abc.localhost\r\n\r\n".toList)
        (fun s => if s = "abc".toList then
            some ⟨"abc", 6, "localhost", 3000, 80, 0, "erin", "10.0.0.6", true, none⟩
          else none)
        [] (fun _ => .error "channel open failure".toList) =
      { wrote := some (error_response 502
          ("Failed to connect to tunnel: ".toList ++ "channel open failure".toList)),
        proxied := false } :=
  ⟨(handle_connection_error_paths "localhost:8080".toList (fun _ => none) []
      (fun _ => .ok ())).2.1
      "GET / HTTP/1.1\r\nHost: abc.localhost\r\n\r\n".toList
      "abc.localhost".toList "abc".toList (by decide) (by decide) (by decide) rfl,
   ((handle_connection_error_paths "localhost:8080".toList
      (fun s => if s = "abc".toList then
          some ⟨"abc", 6, "localhost", 3000, 80, 0, "erin", "10.0.0.6", true, none⟩
        else none)
      [] (fun _ => .error "channel open failure".toList)).2.2
      "GET / HTTP/1.1\r\nHost: abc.localhost\r\n\r\n".toList
      "abc.localhost".toList "abc".toList
      ⟨"abc", 6, "localhost", 3000, 80, 0, "erin", "10.0.0.6", true, none⟩
      "channel open failure".toList
      (by decide) (by decide) (by decide) (by decide) rfl).1⟩

/-- `findSome?` over a successor-shifted index list. -/
theorem findSome?_map_succ {α : Type} (g : Nat → Option α) (l : List Nat) :
    (l.map Nat.succ).findSome? g = l.findSome? (fun k => g (k + 1)) := by
  induction l with
  | nil => rfl
  | cons a l ih =>
      rw [List.map_cons, List.findSome?_cons, List.findSome?_cons, ih]

/-- One iteration of the polling loop acts exactly as the spec-side
resolution of the current response. -/
theorem pollLoop_succ (responses : Nat → Except String CheckCodeResponse) (i n : Nat) :
    pollLoop responses i (n + 1) =
      (match claimResolution (responses i) with
       | some outcome => outcome
       | none => pollLoop responses (i + 1) n) := by
  cases hresp : responses i with
  | error s => simp [pollLoop, hresp, claimResolution]
  | ok r =>
      simp only [pollLoop, hresp, claimResolution]
      by_cases hv : r.status = "verified"
      · cases hui : r.user_id <;> simp [hv, hui]
      · by_cases he : r.status = "expired"
        · simp [hv, he]
        · by_cases hn : r.status = "not_found" <;> simp [hv, he, hn]

/-- The polling loop started at index `i` with `fuel` attempts left
returns the first resolving response among `responses i`,
`responses (i+1)`, …, or times out. -/
theorem pollLoop_eq_claim (responses : Nat → Except String CheckCodeResponse) :
    ∀ (fuel i : Nat),
      pollLoop responses i fuel =
        (match (List.range fuel).findSome?
            (fun k => claimResolution (responses (i + k))) with
         | some outcome => outcome
         | none => .error "Timeout waiting for activation") := by
  intro fuel
  induction fuel with
  | zero => intro i; rfl
  | succ n ih =>
      intro i
      rw [pollLoop_succ, List.range_succ_eq_map, List.findSome?_cons, findSome?_map_succ]
      cases h : claimResolution (responses (i + 0)) with
      | some outcome =>
          rw [Nat.add_zero] at h
          rw [h]
      | none =>
          rw [Nat.add_zero] at h
          rw [h, ih (i + 1)]
          simp only [Nat.add_succ, Nat.succ_add]

/-- C8: with the default configuration, `poll_until_verified` polls at a
2-second interval for at most 150 attempts, and its outcome is that of
the first resolving response — success at the first `verified` response
carrying a user id, failure at the first `expired` or `not_found`,
polling continues on `pending` (and on transport errors or unknown
statuses) — with a timeout error when none of the 150 attempts
resolves. -/
theorem poll_until_verified_spec (responses : Nat → Except String CheckCodeResponse) :
    DeviceFlowConfig.default.poll_interval_secs = 2 ∧
    DeviceFlowConfig.default.max_poll_attempts = 150 ∧
    poll_until_verified DeviceFlowConfig.default responses =
      claimPollOutcome responses 150 := by
  refine ⟨rfl, rfl, ?_⟩
  unfold poll_until_verified claimPollOutcome
  rw [pollLoop_eq_claim responses _ 0]
  simp only [Nat.zero_add]
  rfl

/-- The cancellation loop, characterised: every subdomain of the
snapshot is absent from the resulting registry, other keys are
untouched, and the live list keeps exactly the elements that did not
match the cancelled forward under the initial registry. -/
theorem cancelLoop_spec (address : String) (port : Nat) :
    ∀ (todo : List String) (tunnels : Tunnels) (cur : List String),
      (∀ s, (cancelLoop address port todo tunnels cur).1 s =
        if s ∈ todo then none else tunnels s) ∧
      (cancelLoop address port todo tunnels cur).2 =
        cur.filter
          (fun x => !(decide (x ∈ todo) && matchesForward tunnels address port x)) := by
  intro todo
  induction todo with
  | nil =>
      intro tunnels cur
      constructor
      · intro s
        simp [cancelLoop]
      · simp [cancelLoop]
  | cons s0 rest ih =>
      intro tunnels cur
      cases h : tunnels s0 with
      | some info =>
          have hrm : remove_tunnel tunnels s0 = .ok (info, mapRemove tunnels s0) := by
            unfold remove_tunnel
            rw [h]
          by_cases hm : info.requested_address = address ∧ info.requested_port = port
          · have hstep : cancelLoop address port (s0 :: rest) tunnels cur =
                cancelLoop address port rest (mapRemove tunnels s0)
                  (cur.filter (· ≠ s0)) := by
              conv_lhs => unfold cancelLoop
              rw [hrm]
              dsimp only
              rw [if_pos hm]
            constructor
            · intro s
              rw [hstep, (ih (mapRemove tunnels s0) (cur.filter (· ≠ s0))).1 s]
              by_cases hs0 : s = s0
              · subst hs0
                by_cases hsr : s ∈ rest <;>
                  simp [hsr, mapRemove, List.mem_cons]
              · by_cases hsr : s ∈ rest <;>
                  simp [hsr, hs0, mapRemove, List.mem_cons]
            · rw [hstep, (ih (mapRemove tunnels s0) (cur.filter (· ≠ s0))).2,
                List.filter_filter]
              apply List.filter_congr
              intro x _
              by_cases hx : x = s0
              · subst hx
                simp [matchesForward, h, hm]
              · have hmr : mapRemove tunnels s0 x = tunnels x := by
                  simp [mapRemove, hx]
                simp [matchesForward, hmr, hx, List.mem_cons]
          · have hstep : cancelLoop address port (s0 :: rest) tunnels cur =
                cancelLoop address port rest (mapRemove tunnels s0) cur := by
              conv_lhs => unfold cancelLoop
              rw [hrm]
              dsimp only
              rw [if_neg hm]
            constructor
            · intro s
              rw [hstep, (ih (mapRemove tunnels s0) cur).1 s]
              by_cases hs0 : s = s0
              · subst hs0
                by_cases hsr : s ∈ rest <;>
                  simp [hsr, mapRemove, List.mem_cons]
              · by_cases hsr : s ∈ rest <;>
                  simp [hsr, hs0, mapRemove, List.mem_cons]
            · rw [hstep, (ih (mapRemove tunnels s0) cur).2]
              apply List.filter_congr
              intro x _
              by_cases hx : x = s0
              · subst hx
                simp [matchesForward, mapRemove, h, hm]
              · have hmr : mapRemove tunnels s0 x = tunnels x := by
                  simp [mapRemove, hx]
                simp [matchesForward, hmr, hx, List.mem_cons]
      | none =>
          have hrm : remove_tunnel tunnels s0 = .error (.tunnelNotFound s0) := by
            unfold remove_tunnel
            rw [h]
          have hstep : cancelLoop address port (s0 :: rest) tunnels cur =
              cancelLoop address port rest tunnels cur := by
            conv_lhs => unfold cancelLoop
            rw [hrm]
          constructor
          · intro s
            rw [hstep, (ih tunnels cur).1 s]
            by_cases hs0 : s = s0
            · subst hs0
              by_cases hsr : s ∈ rest <;> simp [hsr, h, List.mem_cons]
            · by_cases hsr : s ∈ rest <;> simp [hsr, hs0, List.mem_cons]
          · rw [hstep, (ih tunnels cur).2]
            apply List.filter_congr
            intro x _
            by_cases hx : x = s0
            · subst hx
              simp [matchesForward, h, List.mem_cons]
            · simp [hx, List.mem_cons]

/-- C10: `cancel_tcpip_forward` removes *every* subdomain of the
session's `registered_subdomains` from the registry — not only the
tunnels whose recorded `(requested_address, requested_port)` match the
cancelled forward — while only the matching ones leave the session's
list, so non-matching tunnels end up deleted from the registry yet
still listed as owned by the session. -/
theorem cancel_tcpip_forward_spec (address : String) (port : Nat)
    (registered : List String) (tunnels : Tunnels) :
    (∀ s ∈ registered, (cancel_tcpip_forward address port registered tunnels).1 s = none) ∧
    (∀ s, s ∉ registered →
      (cancel_tcpip_forward address port registered tunnels).1 s = tunnels s) ∧
    (cancel_tcpip_forward address port registered tunnels).2 =
      registered.filter (fun s => !matchesForward tunnels address port s) := by
  have h := cancelLoop_spec address port registered tunnels registered
  refine ⟨?_, ?_, ?_⟩
  · intro s hs
    rw [show cancel_tcpip_forward address port registered tunnels =
        cancelLoop address port registered tunnels registered from rfl, h.1 s, if_pos hs]
  · intro s hs
    rw [show cancel_tcpip_forward address port registered tunnels =
        cancelLoop address port registered tunnels registered from rfl, h.1 s, if_neg hs]
  · rw [show cancel_tcpip_forward address port registered tunnels =
        cancelLoop address port registered tunnels registered from rfl, h.2]
    apply List.filter_congr
    intro x hx
    simp [hx]

/-- Witness for C10: subdomain `a` matches the cancelled forward and
leaves both registry and list; subdomain `b` does not match, yet is
removed from the registry while staying in the list. -/
theorem cancel_tcpip_forward_spec_witness :
    (cancel_tcpip_forward "localhost" 3000 ["a", "b"]
        (fun k => if k = "a" then
            some ⟨"a", 1, "localhost", 3000, 80, 0, "u", "ip", true, none⟩
          else if k = "b" then
            some ⟨"b", 2, "localhost", 4000, 80, 0, "u", "ip", true, none⟩
          else none)).1 "b" = none ∧
    (cancel_tcpip_forward "localhost" 3000 ["a", "b"]
        (fun k => if k = "a" then
            some ⟨"a", 1, "localhost", 3000, 80, 0, "u", "ip", true, none⟩
          else if k = "b" then
            some ⟨"b", 2, "localhost", 4000, 80, 0, "u", "ip", true, none⟩
          else none)).2 = ["b"] := by
  have h := cancel_tcpip_forward_spec "localhost" 3000 ["a", "b"]
    (fun k => if k = "a" then
        some ⟨"a", 1, "localhost", 3000, 80, 0, "u", "ip", true, none⟩
      else if k = "b" then
        some ⟨"b", 2, "localhost", 4000, 80, 0, "u", "ip", true, none⟩
      else none)
  refine ⟨h.1 "b" (by decide), ?_⟩
  rw [h.2.2]
  decide

/-- ASCII lowering never produces an uppercase letter. -/
theorem asciiLower_not_upper (c : Char) :
    ¬('A' ≤ asciiLowerChar c ∧ asciiLowerChar c ≤ 'Z') := by
  unfold asciiLowerChar
  split_ifs with h
  · obtain ⟨h1, h2⟩ := h
    have hZ : c.toNat ≤ 90 := by
      have := Char.le_def.mp h2
      simpa [Char.toNat] using this
    have hval : (Char.ofNat (c.toNat + 32)).toNat = c.toNat + 32 := by
      unfold Char.ofNat
      rw [dif_pos (Or.inl (by omega))]
      rfl
    have hA : 65 ≤ c.toNat := by
      have := Char.le_def.mp h1
      simpa [Char.toNat] using this
    rintro ⟨-, hup⟩
    have hle : (Char.ofNat (c.toNat + 32)).toNat ≤ 90 := by
      have := Char.le_def.mp hup
      simpa [Char.toNat] using this
    rw [hval] at hle
    omega
  · exact h

/-- `split(':').next()` returns the colon-free head of the host
unchanged, for any `:port` suffix (or none). -/
theorem stripPort_append (l rest : List Char)
    (hrest : rest = [] ∨ ∃ r, rest = ':' :: r) :
    (∀ c ∈ l, c ≠ ':') → stripPort (l ++ rest) = l := by
  induction l with
  | nil =>
      intro _
      unfold stripPort
      rcases hrest with h | ⟨r, h⟩ <;> subst h
      · rfl
      · simp [List.takeWhile_cons]
  | cons c l ih =>
      intro hl
      have hc : c ≠ ':' := hl c (List.mem_cons_self c l)
      unfold stripPort at ih ⊢
      rw [List.cons_append, List.takeWhile_cons, if_pos (by simp [hc]),
        ih (fun d hd => hl d (List.mem_cons_of_mem c hd))]

/-- A label that satisfies the DNS grammar after lowering contains no
colon (a colon survives lowering and is outside `[a-z0-9-]`). -/
theorem valid_label_no_colon (label : List Char)
    (h : isValidDnsLabel (label.map asciiLowerChar) = true) :
    ∀ c ∈ label, c ≠ ':' := by
  intro c hc hceq
  unfold isValidDnsLabel at h
  simp only [Bool.and_eq_true, List.all_eq_true] at h
  have hval := h.1.1.2 (asciiLowerChar c) (List.mem_map_of_mem _ hc)
  rw [hceq] at hval
  rw [show asciiLowerChar ':' = ':' from by decide] at hval
  exact absurd hval (by decide)

/-- Extraction on a well-shaped host `label.base[:port]` (label and base
colon-free) is governed exactly by the DNS-label grammar of the
lowercased label. -/
theorem extract_subdomain_label (label base port : List Char)
    (hlab : ∀ c ∈ label, c ≠ ':') (hbase : ∀ c ∈ base, c ≠ ':')
    (hport : port = [] ∨ ∃ r, port = ':' :: r) :
    extract_subdomain_with_base (label ++ '.' :: (base ++ port)) base =
      (if isValidDnsLabel (label.map asciiLowerChar) then
        some (label.map asciiLowerChar)
      else none) := by
  have hstrip : stripPort (label ++ '.' :: (base ++ port)) = label ++ '.' :: base := by
    have hshape : label ++ '.' :: (base ++ port) = (label ++ '.' :: base) ++ port := by
      simp
    rw [hshape]
    refine stripPort_append _ _ hport ?_
    intro c hc
    rcases List.mem_append.mp hc with h | h
    · exact hlab c h
    · rcases List.mem_cons.mp h with h | h
      · subst h
        decide
      · exact hbase c h
  unfold extract_subdomain_with_base
  dsimp only
  rw [hstrip]
  have hsuffix : ('.' :: base) <:+ (label ++ '.' :: base) := ⟨label, rfl⟩
  rw [if_pos hsuffix]
  have hlen : (label ++ '.' :: base).length - ('.' :: base).length = label.length := by
    simp [List.length_append]
  rw [hlen, List.take_left]
  by_cases hvalid : isValidDnsLabel (label.map asciiLowerChar) = true
  · rw [if_pos hvalid]
    unfold isValidDnsLabel at hvalid
    simp only [Bool.and_eq_true, decide_eq_true_eq, List.all_eq_true, Bool.not_eq_true',
      decide_eq_false_iff_not, List.length_map] at hvalid
    obtain ⟨⟨⟨⟨hlen1, hlen2⟩, hall⟩, hhead⟩, hlast⟩ := hvalid
    have hnodot : '.' ∉ label := by
      intro hdot
      have := hall (asciiLowerChar '.') (List.mem_map_of_mem _ hdot)
      rw [show asciiLowerChar '.' = '.' from by decide] at this
      exact absurd this (by decide)
    have hempty : label.isEmpty = false := by
      cases label with
      | nil => simp at hlen1
      | cons c l => rfl
    have hcontains : label.contains '.' = false := by
      rw [← Bool.not_eq_true]
      intro hc
      exact hnodot (List.elem_iff.mp hc)
    rw [if_neg (by simp [hempty, hcontains, hnodot])]
    rw [if_neg (by omega)]
    have hcode : (label.map asciiLowerChar).all
        (fun c => isAsciiAlphanumeric c || c = '-') = true := by
      rw [List.all_eq_true]
      intro x hx
      have hs := hall x hx
      simp only [isAsciiAlphanumeric, isAsciiLowercase, isAsciiDigit, Bool.or_eq_true,
        Bool.and_eq_true, decide_eq_true_eq] at hs ⊢
      tauto
    rw [if_neg (by simp [hcode])]
    have hcond : ((label.map asciiLowerChar).head? = some '-' ||
        (label.map asciiLowerChar).getLast? = some '-') = false := by
      simp only [Bool.or_eq_false_iff, decide_eq_false_iff_not]
      exact ⟨hhead, hlast⟩
    rw [if_neg (by rw [hcond]; decide)]
  · rw [if_neg hvalid]
    have hv : isValidDnsLabel (label.map asciiLowerChar) = false := by
      revert hvalid
      cases isValidDnsLabel (label.map asciiLowerChar) <;> simp
    split_ifs with h1 h2 h3 h4
    · rfl
    · rfl
    · rfl
    · rfl
    · exfalso
      simp only [Bool.or_eq_true, not_or, List.isEmpty_eq_true, Bool.not_eq_true] at h1 h4
      obtain ⟨hne, hnodot⟩ := h1
      have hall : (label.map asciiLowerChar).all
          (fun c => isAsciiAlphanumeric c || c = '-') = true := by
        revert h3
        cases (label.map asciiLowerChar).all (fun c => isAsciiAlphanumeric c || c = '-') <;>
          simp
      have hspec : (label.map asciiLowerChar).all
          (fun c => isAsciiLowercase c || isAsciiDigit c || c = '-') = true := by
        rw [List.all_eq_true] at hall ⊢
        intro x hx
        have hcx := hall x hx
        obtain ⟨c0, -, hc0⟩ := List.mem_map.mp hx
        simp only [isAsciiAlphanumeric, isAsciiLowercase, isAsciiDigit, Bool.or_eq_true,
          Bool.and_eq_true, decide_eq_true_eq] at hcx ⊢
        rcases hcx with ((h | h) | h) | h
        · tauto
        · subst hc0
          exact absurd h (asciiLower_not_upper c0)
        · tauto
        · tauto
      have hlen1 : 1 ≤ label.length := by
        cases label with
        | nil => exact absurd rfl hne
        | cons c l => simp
      rw [← Bool.not_eq_true] at hv
      refine hv ?_
      unfold isValidDnsLabel
      simp only [Bool.and_eq_true, decide_eq_true_eq, List.length_map, Bool.not_eq_true',
        decide_eq_false_iff_not]
      exact ⟨⟨⟨⟨hlen1, by omega⟩, hspec⟩, of_decide_eq_false h4.1⟩,
        of_decide_eq_false h4.2⟩

/-- C4 (amended): subdomain extraction on `label.B[:port]` returns the
lowercased label exactly when the lowercased label satisfies the DNS
grammar; the bare host `B[:port]` and nested hosts `a.b.B[:port]` yield
`None`; a label that violates the grammar yields `None` *provided it
contains no `':'`* — everything from the first `':'` of the host is
discarded as a port, so a label containing `':'` is reinterpreted (see
the counterexample).  `extract_subdomain` is extraction against
`TUNNEL_URL` with its own `:port` stripped. -/
theorem extract_subdomain_with_base_spec :
    (∀ label base port : List Char, (∀ c ∈ base, c ≠ ':') →
      (port = [] ∨ ∃ r, port = ':' :: r) →
      isValidDnsLabel (label.map asciiLowerChar) = true →
      extract_subdomain_with_base (label ++ '.' :: (base ++ port)) base =
        some (label.map asciiLowerChar)) ∧
    (∀ base port : List Char, (∀ c ∈ base, c ≠ ':') →
      (port = [] ∨ ∃ r, port = ':' :: r) →
      extract_subdomain_with_base (base ++ port) base = none) ∧
    (∀ a b base port : List Char, (∀ c ∈ a, c ≠ ':') → (∀ c ∈ b, c ≠ ':') →
      (∀ c ∈ base, c ≠ ':') → (port = [] ∨ ∃ r, port = ':' :: r) →
      extract_subdomain_with_base (a ++ '.' :: (b ++ '.' :: (base ++ port))) base =
        none) ∧
    (∀ label base port : List Char, (∀ c ∈ label, c ≠ ':') → (∀ c ∈ base, c ≠ ':') →
      (port = [] ∨ ∃ r, port = ':' :: r) →
      isValidDnsLabel (label.map asciiLowerChar) = false →
      extract_subdomain_with_base (label ++ '.' :: (base ++ port)) base = none) ∧
    (∀ tunnel_url host : List Char,
      extract_subdomain tunnel_url host =
        extract_subdomain_with_base host (stripPort tunnel_url)) := by
  refine ⟨?_, ?_, ?_, ?_, fun _ _ => rfl⟩
  · intro label base port hbase hport hvalid
    rw [extract_subdomain_label label base port (valid_label_no_colon label hvalid)
      hbase hport, if_pos hvalid]
  · intro base port hbase hport
    have hstrip : stripPort (base ++ port) = base :=
      stripPort_append base port hport hbase
    unfold extract_subdomain_with_base
    dsimp only
    rw [hstrip]
    rw [if_neg]
    intro hsuf
    have := List.IsSuffix.length_le hsuf
    simp at this
  · intro a b base port ha hb hbase hport
    have hstrip : stripPort (a ++ '.' :: (b ++ '.' :: (base ++ port))) =
        a ++ '.' :: (b ++ '.' :: base) := by
      have hshape : a ++ '.' :: (b ++ '.' :: (base ++ port)) =
          (a ++ '.' :: (b ++ '.' :: base)) ++ port := by
        simp
      rw [hshape]
      refine stripPort_append _ _ hport ?_
      intro c hc
      rcases List.mem_append.mp hc with h | h
      · exact ha c h
      · rcases List.mem_cons.mp h with h | h
        · subst h
          decide
        · rcases List.mem_append.mp h with h | h
          · exact hb c h
          · rcases List.mem_cons.mp h with h | h
            · subst h
              decide
            · exact hbase c h
    unfold extract_subdomain_with_base
    dsimp only
    rw [hstrip]
    have hshape2 : a ++ '.' :: (b ++ '.' :: base) = (a ++ '.' :: b) ++ '.' :: base := by
      simp
    rw [hshape2]
    have hsuffix : ('.' :: base) <:+ ((a ++ '.' :: b) ++ '.' :: base) :=
      ⟨a ++ '.' :: b, rfl⟩
    rw [if_pos hsuffix]
    have hlen : ((a ++ '.' :: b) ++ '.' :: base).length - ('.' :: base).length =
        (a ++ '.' :: b).length := by
      simp only [List.length_append, List.length_cons]
      omega
    rw [hlen, List.take_left]
    rw [if_pos]
    simp
  · intro label base port hlab hbase hport hinvalid
    rw [extract_subdomain_label label base port hlab hbase hport, if_neg (by simp [hinvalid])]

/-- C4 is false as stated when the label contains `':'`: the label
`a.localhost:zz` is invalid by the grammar (it contains `'.'` and
`':'`), yet on host `a.localhost:zz.localhost` with base `localhost` the
extraction returns `Some "a"` rather than `None`, because the host is
cut at the first `':'` before matching. -/
theorem extract_subdomain_colon_label_counterexample :
    isValidDnsLabel ("a.localhost:zz".toList.map asciiLowerChar) = false ∧
    "a.localhost:zz".toList ++ '.' :: "localhost".toList =
      "a.localhost:zz.localhost".toList ∧
    extract_subdomain_with_base "a.localhost:zz.localhost".toList "localhost".toList =
      some "a".toList := by
  refine ⟨by decide, by decide, by decide⟩

/-- Witness for the amended C4: a mixed-case valid label (with port), the
bare base host, a nested host, and a hyphen-invalid label. -/
theorem extract_subdomain_with_base_spec_witness :
    extract_subdomain_with_base
        ("MyApp".toList ++ '.' :: ("localhost".toList ++ ":8080".toList))
        "localhost".toList = some "myapp".toList ∧
    extract_subdomain_with_base ("localhost".toList ++ ":8080".toList)
        "localhost".toList = none ∧
    extract_subdomain_with_base
        ("a".toList ++ '.' :: ("b".toList ++ '.' :: ("localhost".toList ++ [])))
        "localhost".toList = none ∧
    extract_subdomain_with_base ("-bad-".toList ++ '.' :: ("localhost".toList ++ []))
        "localhost".toList = none := by
  refine ⟨?_, ?_, ?_, ?_⟩
  · rw [extract_subdomain_with_base_spec.1 "MyApp".toList "localhost".toList
      ":8080".toList (by decide) (Or.inr ⟨"8080".toList, by decide⟩) (by decide)]
    decide
  · exact extract_subdomain_with_base_spec.2.1 "localhost".toList ":8080".toList
      (by decide) (Or.inr ⟨"8080".toList, by decide⟩)
  · exact extract_subdomain_with_base_spec.2.2.1 "a".toList "b".toList
      "localhost".toList [] (by decide) (by decide) (by decide) (Or.inl rfl)
  · exact extract_subdomain_with_base_spec.2.2.2.1 "-bad-".toList "localhost".toList []
      (by decide) (by decide) (Or.inl rfl) (by decide)

end Exlo
